import Mathlib

/-!
Shallow embedding of the container watchdog daemon and proofs about its
health-state tracking and recovery decision engine.

The repository holds two near-duplicate scripts:
  src/container_watchdog.py  (underscore variant, with SMTP support), and
  src/container-watchdog.py  (hyphen variant, Slack only).
Definitions suffixed with H embed the hyphen variant; unsuffixed
definitions embed the underscore variant.

External collaborators (the docker client library, the HTTP and SMTP
transports) are modelled at the interface boundary described in the spec;
their outcomes are passed in as explicit values.
-/

namespace Watchdog

/-- One entry of attrs State Health Log; the Output key may be missing. -/
structure HealthLogEntry where
  Output : Option String
  deriving DecidableEq

/-- The attrs State Health sub-structure; the Status and Log keys may be
missing, which the source surfaces as a KeyError. -/
structure HealthAttrs where
  Status : Option String
  Log : Option (List HealthLogEntry)
  deriving DecidableEq

/-- The attrs State structure of a container: the Health key may be absent
entirely (container without a healthcheck). -/
structure ContainerAttrs where
  Health : Option HealthAttrs
  deriving DecidableEq

/-- One container as observed through the runtime collaborator in a poll
cycle: identifier, display name, coarse runtime status, raw attrs, and the
outcome the runtime would give to a restart call on it (restartOk with an
error message restartErr when it fails). -/
structure Container where
  short_id : String
  name : String
  status : String
  attrs : ContainerAttrs
  restartOk : Bool
  restartErr : String
  deriving DecidableEq

/-- Embeds get_container_health_status of container_watchdog.py lines 62-67:
read attrs State Health Status, returning the sentinel nokey on a missing
key instead of raising. -/
def get_container_health_status (c : Container) : String :=
  match c.attrs.Health with
  | none => "nokey"
  | some h =>
    match h.Status with
    | none => "nokey"
    | some s => s

/-- Embeds get_container_health_log of container_watchdog.py lines 69-76:
read the Output of the last Log entry; a missing key yields nokey
(KeyError), an existing but empty Log array yields empty (IndexError). -/
def get_container_health_log (c : Container) : String :=
  match c.attrs.Health with
  | none => "nokey"
  | some h =>
    match h.Log with
    | none => "nokey"
    | some [] => "empty"
    | some (e :: es) =>
      match (e :: es).getLast (by simp) |>.Output with
      | none => "nokey"
      | some o => o

/-- The three notification payloads the underscore variant builds into
notification_content, defunctionalized: one constructor per format string
of the source (restart success, restart failure, recovery). -/
inductive Notification where
  | restarted (host name state health log : String)
  | restartFailed (name host err : String)
  | recovered (host name state health : String)
  deriving DecidableEq

/-- Renders a Notification to the exact text the source formats into
notification_content at lines 82-87, 92-93 and 98-102. -/
def renderNotification : Notification → String
  | .restarted host name state health log =>
      "[Container watchdog]: Container restarted\n\tHost: [ *_" ++ host ++
      "_* ]\n\tContainer: [ *_" ++ name ++ "_* ]\n\tState: [ *_" ++ state ++
      "_* ]\n\tHealthstatus: [ *_" ++ health ++ "_* ]\n\tOutput: [ _" ++ log ++ "_ ]"
  | .restartFailed name host err =>
      "[Container watchdog]: Docker daemon failed to restart container *" ++ name ++
      "* on hostmachine *" ++ host ++ "* with error message: _" ++ err ++ "_"
  | .recovered host name state health =>
      "[Container watchdog]: Container has recovered\n\tHost: [ *_" ++ host ++
      "_* ]\n\tContainer: [ *_" ++ name ++ "_* ]\n\tState: [ *_" ++ state ++
      "_* ]\n\tHealthstatus: [ *_" ++ health ++ "_* ]"

/-- Embeds restart_container of container_watchdog.py lines 78-93: issue the
restart through the runtime; on success build the restarted notification and
append the id to restarted_containers only when not already present; on an
error build the failure notification and leave the list untouched.
Returns the new restarted_containers list and the notification text. -/
def restart_container (host : String) (t : List String) (c : Container)
    (chs chl : String) : List String × Notification :=
  if c.restartOk then
    ((if c.short_id ∈ t then t else t ++ [c.short_id]),
     Notification.restarted host c.name c.status chs chl)
  else
    (t, Notification.restartFailed c.name host c.restartErr)

/-- Embeds container_recovered of container_watchdog.py lines 96-104: build
the recovery notification and remove the id from restarted_containers
(Python list.remove drops the first occurrence, as List.erase does). -/
def container_recovered (host : String) (t : List String) (c : Container)
    (chs : String) : List String × Notification :=
  (t.erase c.short_id, Notification.recovered host c.name c.status chs)

/-- The mutable state of one pass of the underscore poll loop:
restarted_containers, the restart_status flag, the notifications emitted so
far this cycle (each branch sends exactly one), and the ids the loop has
iterated over (the unconditional debug log of line 129 fires once per
enumerated container). -/
structure CycleState where
  tracker : List String
  restartStatus : Bool
  notifications : List Notification
  evaluated : List String
  deriving DecidableEq

/-- Embeds the body of the for loop of container_watchdog.py lines 111-129
for one container: recovery branch first (tracked and healthy), then the
restart branch, whose condition tests only health == unhealthy. -/
def pollStep (host : String) (s : CycleState) (c : Container) : CycleState :=
  let chs := get_container_health_status c
  let s' :=
    if c.short_id ∈ s.tracker ∧ chs = "healthy" then
      let r := container_recovered host s.tracker c chs
      { s with tracker := r.1, notifications := s.notifications ++ [r.2] }
    else if chs = "unhealthy" then
      let chl := get_container_health_log c
      let r := restart_container host s.tracker c chs chl
      { s with tracker := r.1, restartStatus := true,
               notifications := s.notifications ++ [r.2] }
    else s
  { s' with evaluated := s'.evaluated ++ [c.short_id] }

/-- One full pass of the underscore while loop over the enumerated
containers, starting from restart_status = False and the tracker carried
over from the previous cycle. -/
def pollCycle (host : String) (t : List String) (containers : List Container) :
    CycleState :=
  containers.foldl (pollStep host) ⟨t, false, [], []⟩

/-- Embeds the sleep selection of lines 132-137: the post-restart interval
when restart_status was set this cycle, the steady interval otherwise. -/
def sleepInterval (pollingAfter polling : Nat) (s : CycleState) : Nat :=
  if s.restartStatus then pollingAfter else polling

/-- Notification kinds that correspond to a restart attempt (the two texts
built inside restart_container, for success and failure). -/
def isRestartAttempt : Notification → Bool
  | .restarted _ _ _ _ _ => true
  | .restartFailed _ _ _ => true
  | .recovered _ _ _ _ => false

/-- Tracker evolution across a whole run: each cycle passes the tracker it
ends with to the next cycle; css is the per-cycle enumeration results. -/
def runCycles (host : String) (t : List String) (css : List (List Container)) :
    List String :=
  css.foldl (fun tr cs => (pollCycle host tr cs).tracker) t

/-- The effect of one pollStep on restarted_containers alone (same branch
structure as pollStep, projected to the tracker component). -/
def trackerStep (t : List String) (c : Container) : List String :=
  if c.short_id ∈ t ∧ get_container_health_status c = "healthy" then
    t.erase c.short_id
  else if get_container_health_status c = "unhealthy" then
    if c.restartOk then (if c.short_id ∈ t then t else t ++ [c.short_id]) else t
  else t

/-- Tracker evolution along a flat sequence of container observations. -/
def processTrace (t : List String) (obs : List Container) : List String :=
  obs.foldl trackerStep t

/-- An observation that makes the underscore restart branch fire for id and
whose restart call succeeds. -/
def trigOk (c : Container) (id : String) : Prop :=
  c.short_id = id ∧ get_container_health_status c = "unhealthy" ∧ c.restartOk = true

/-- An observation of id with classified health healthy. -/
def obsHealthy (c : Container) (id : String) : Prop :=
  c.short_id = id ∧ get_container_health_status c = "healthy"

/-- The engine successfully restarted id at some observation and no later
observation in the sequence reported it healthy. -/
def restartedUnhealed : List Container → String → Prop
  | [], _ => False
  | c :: cs, id =>
      (trigOk c id ∧ ∀ y ∈ cs, ¬ obsHealthy y id) ∨ restartedUnhealed cs id

/-- The notification texts of the hyphen variant container-watchdog.py,
defunctionalized (lines 52-53, 63-64, 70-71). -/
inductive NotificationH where
  | recoveredH (name health state host : String)
  | restartedH (name health state host : String)
  | restartFailedH (name host err : String)
  deriving DecidableEq

/-- The mutable state of one pass of the hyphen poll loop. -/
structure CycleStateH where
  tracker : List String
  restartStatus : Bool
  notifications : List NotificationH
  evaluated : List String
  deriving DecidableEq

/-- Embeds the body of the for loop of container-watchdog.py lines 41-74 for
one container: recovery branch first, then a restart branch whose condition
is health == unhealthy OR status == exited, with the restart call inlined
(idempotent append on success, failure text on error, restartStatus set in
either case). -/
def pollStepH (host : String) (s : CycleStateH) (c : Container) : CycleStateH :=
  let chs := get_container_health_status c
  let s' :=
    if c.short_id ∈ s.tracker ∧ chs = "healthy" then
      { s with tracker := s.tracker.erase c.short_id,
               notifications := s.notifications ++
                 [NotificationH.recoveredH c.name chs c.status host] }
    else if chs = "unhealthy" ∨ c.status = "exited" then
      if c.restartOk then
        { s with tracker :=
                   if c.short_id ∈ s.tracker then s.tracker
                   else s.tracker ++ [c.short_id],
                 restartStatus := true,
                 notifications := s.notifications ++
                   [NotificationH.restartedH c.name chs c.status host] }
      else
        { s with restartStatus := true,
                 notifications := s.notifications ++
                   [NotificationH.restartFailedH c.name host c.restartErr] }
    else s
  { s' with evaluated := s'.evaluated ++ [c.short_id] }

/-- One full pass of the hyphen while loop. -/
def pollCycleH (host : String) (t : List String) (containers : List Container) :
    CycleStateH :=
  containers.foldl (pollStepH host) ⟨t, false, [], []⟩

/-- Modelled from the spec: the runtime collaborator interface of section 6,
list_containers returning every container visible to the runtime. The docker
client library itself is not part of this repository; the daemon passes its
result straight to the loop. -/
def list_containers (visible : List Container) : List Container := visible

/-- The underscore poll cycle fed directly by the runtime collaborator
enumeration (container_watchdog.py lines 110-111). -/
def pollCycleFromRuntime (host : String) (t : List String)
    (visible : List Container) : CycleState :=
  pollCycle host t (list_containers visible)

/-- Embeds the startup connectivity check of container_watchdog.py lines
26-32: on any error from the client the process logs and exits (none);
otherwise execution proceeds (some). -/
def startupCheck (connect : Except String Unit) : Option Unit :=
  match connect with
  | Except.ok _ => some ()
  | Except.error _ => none

/-- Embeds the enumeration point of the run loop (container_watchdog.py
line 110): the call CLIENT.containers.list() stands outside any exception
handler, so an error outcome of the collaborator propagates out of the
cycle instead of being handled. -/
def runCycleE (host : String) (t : List String)
    (enum : Except String (List Container)) : Except String CycleState :=
  match enum with
  | Except.error e => Except.error e
  | Except.ok cs => Except.ok (pollCycle host t cs)

/-- Outcome of one transport send as the caller observes it. -/
inductive SendOutcome where
  | skipped
  | sent
  | loggedError
  deriving DecidableEq

/-- Result of the requests.post call inside send_slack_message: success, a
timeout, a builtin connection error, or any other raised exception. -/
inductive PostResult where
  | success
  | timeout
  | connError
  | raised (e : String)
  deriving DecidableEq

/-- Embeds send_slack_message of container_watchdog.py lines 35-43: an empty
webhook URL is a silent no-op; the except clause catches only Timeout and
the builtin ConnectionError, so any other exception propagates (error). -/
def send_slack_message (url : String) (post : PostResult) :
    Except String SendOutcome :=
  if url ≠ "" then
    match post with
    | PostResult.success => Except.ok SendOutcome.sent
    | PostResult.timeout => Except.ok SendOutcome.loggedError
    | PostResult.connError => Except.ok SendOutcome.loggedError
    | PostResult.raised e => Except.error e
  else Except.ok SendOutcome.skipped

/-- Embeds send_smtp_message of container_watchdog.py lines 45-59: missing
receiver or server is a silent no-op; the smtplib.SMTP connection is opened
on line 53 OUTSIDE the try block, so a connect error propagates; only the
send_message call on line 55 is guarded, its errors are logged and
swallowed. -/
def send_smtp_message (receiver server : String)
    (connect : Except String Unit) (sendMsg : Except String Unit) :
    Except String SendOutcome :=
  if receiver ≠ "" ∧ server ≠ "" then
    match connect with
    | Except.error e => Except.error e
    | Except.ok _ =>
      match sendMsg with
      | Except.ok _ => Except.ok SendOutcome.sent
      | Except.error _ => Except.ok SendOutcome.loggedError
  else Except.ok SendOutcome.skipped

/-- The notification fan-out as the loop performs it (lines 118-119 and
126-127): Slack first, then SMTP, sequentially; an uncaught exception in
either aborts the rest of the cycle. -/
def notifyBoth (url receiver server : String) (post : PostResult)
    (connect sendMsg : Except String Unit) :
    Except String (SendOutcome × SendOutcome) := do
  let s ← send_slack_message url post
  let m ← send_smtp_message receiver server connect sendMsg
  pure (s, m)

/-- A running container whose healthcheck reports unhealthy and whose
restart call would succeed. -/
def cUnhealthy : Container :=
  { short_id := "c1", name := "app", status := "running",
    attrs := ⟨some ⟨some "unhealthy", some []⟩⟩,
    restartOk := true, restartErr := "" }

/-- A running container whose healthcheck reports healthy. -/
def cHealthy : Container :=
  { short_id := "c1", name := "app", status := "running",
    attrs := ⟨some ⟨some "healthy", some []⟩⟩,
    restartOk := true, restartErr := "" }

/-- An exited container with no healthcheck configured (attrs State Health
absent): the scenario of claim C1. -/
def cExitedNoHealth : Container :=
  { short_id := "c2", name := "worker", status := "exited",
    attrs := ⟨none⟩, restartOk := true, restartErr := "" }

/-- An unhealthy container whose restart call errors. -/
def cUnhealthyFail : Container :=
  { short_id := "c1", name := "app", status := "running",
    attrs := ⟨some ⟨some "unhealthy", some [⟨some "ping failed"⟩]⟩⟩,
    restartOk := false, restartErr := "boom" }

/-- A healthy container with a healthcheck whose log array exists but holds
zero entries. -/
def cEmptyLog : Container :=
  { short_id := "c3", name := "db", status := "running",
    attrs := ⟨some ⟨some "healthy", some []⟩⟩,
    restartOk := true, restartErr := "" }

/-- A healthy container unrelated to the tracked id c1. -/
def cOtherHealthy : Container :=
  { short_id := "c9", name := "other", status := "running",
    attrs := ⟨some ⟨some "healthy", none⟩⟩,
    restartOk := true, restartErr := "" }

/-! Helper lemmas connecting the loop body to its tracker projection and
characterizing one tracker step. -/

theorem pollStep_tracker (host : String) (s : CycleState) (c : Container) :
    (pollStep host s c).tracker = trackerStep s.tracker c := by
  by_cases h1 : c.short_id ∈ s.tracker ∧ get_container_health_status c = "healthy"
  · simp [pollStep, trackerStep, container_recovered, h1]
  · by_cases h2 : get_container_health_status c = "unhealthy"
    · by_cases h3 : c.restartOk = true
      · by_cases h4 : c.short_id ∈ s.tracker <;>
          simp [pollStep, trackerStep, restart_container, h1, h2, h3, h4]
      · simp [pollStep, trackerStep, restart_container, h1, h2, h3]
    · simp [pollStep, trackerStep, h1, h2]

theorem pollCycle_tracker (host : String) (t : List String)
    (cs : List Container) : (pollCycle host t cs).tracker = processTrace t cs := by
  suffices h : ∀ (s : CycleState),
      (cs.foldl (pollStep host) s).tracker = processTrace s.tracker cs by
    exact h ⟨t, false, [], []⟩
  induction cs with
  | nil => intro s; rfl
  | cons c cs ih =>
    intro s
    have : processTrace s.tracker (c :: cs) = processTrace (trackerStep s.tracker c) cs := rfl
    rw [List.foldl_cons, ih, pollStep_tracker, this]

theorem runCycles_eq_processTrace (host : String) (t : List String)
    (css : List (List Container)) :
    runCycles host t css = processTrace t css.flatten := by
  induction css generalizing t with
  | nil => rfl
  | cons cs css ih =>
    show runCycles host (pollCycle host t cs).tracker css
      = processTrace t ((cs :: css).flatten)
    rw [pollCycle_tracker, ih]
    show processTrace (processTrace t cs) css.flatten
      = processTrace t (cs ++ css.flatten)
    simp [processTrace, List.foldl_append]

theorem mem_trackerStep {t : List String} (hnd : t.Nodup) (c : Container)
    (id : String) :
    id ∈ trackerStep t c ↔ trigOk c id ∨ (id ∈ t ∧ ¬ obsHealthy c id) := by
  by_cases hid : c.short_id = id
  · subst hid
    unfold trackerStep trigOk obsHealthy
    by_cases hh : get_container_health_status c = "healthy"
    · by_cases hm : c.short_id ∈ t
      · simp [hm, hh, hnd.not_mem_erase,
          show get_container_health_status c ≠ "unhealthy" by simp [hh]]
      · simp [hm, hh,
          show get_container_health_status c ≠ "unhealthy" by simp [hh]]
    · by_cases hu : get_container_health_status c = "unhealthy"
      · cases hro : c.restartOk
        · simp [hh, hu, hro]
        · by_cases hm : c.short_id ∈ t <;> simp [hh, hu, hro, hm]
      · simp [hh, hu]
  · have hmem : id ∈ trackerStep t c ↔ id ∈ t := by
      unfold trackerStep
      split
      · exact List.mem_erase_of_ne (fun h => hid h.symm)
      · split
        · split
          · split
            · exact Iff.rfl
            · rw [List.mem_append, List.mem_singleton]
              exact or_iff_left (fun h => hid h.symm)
          · exact Iff.rfl
        · exact Iff.rfl
    rw [hmem]
    unfold trigOk obsHealthy
    simp [hid]

theorem nodup_trackerStep {t : List String} (hnd : t.Nodup) (c : Container) :
    (trackerStep t c).Nodup := by
  unfold trackerStep
  split
  · exact hnd.erase _
  · split
    · split
      · split
        · exact hnd
        · rename_i hnotmem
          refine List.Nodup.append hnd (by simp) ?_
          intro a ha hb
          simp only [List.mem_singleton] at hb
          subst hb
          exact hnotmem ha
      · exact hnd
    · exact hnd

theorem nodup_processTrace {t : List String} (hnd : t.Nodup)
    (obs : List Container) : (processTrace t obs).Nodup := by
  induction obs generalizing t with
  | nil => exact hnd
  | cons c cs ih => exact ih (nodup_trackerStep hnd c)

theorem mem_processTrace (obs : List Container) (id : String) :
    ∀ t : List String, t.Nodup →
      (id ∈ processTrace t obs ↔
        restartedUnhealed obs id ∨ (id ∈ t ∧ ∀ c ∈ obs, ¬ obsHealthy c id)) := by
  induction obs with
  | nil => intro t _; simp [processTrace, restartedUnhealed]
  | cons c cs ih =>
    intro t hnd
    have step : processTrace t (c :: cs) = processTrace (trackerStep t c) cs := rfl
    rw [step, ih (trackerStep t c) (nodup_trackerStep hnd c),
      mem_trackerStep hnd c id]
    simp only [restartedUnhealed, List.forall_mem_cons]
    constructor
    · rintro (h | ⟨(h | ⟨hm, hnh⟩), hrest⟩)
      · exact Or.inl (Or.inr h)
      · exact Or.inl (Or.inl ⟨h, hrest⟩)
      · exact Or.inr ⟨hm, hnh, hrest⟩
    · rintro ((⟨ht, hrest⟩ | h) | ⟨hm, hnh, hrest⟩)
      · exact Or.inr ⟨Or.inl ht, hrest⟩
      · exact Or.inl h
      · exact Or.inr ⟨Or.inr ⟨hm, hnh⟩, hrest⟩

theorem pollStep_flag (host : String) (s : CycleState) (c : Container)
    (h : s.restartStatus = s.notifications.any isRestartAttempt) :
    (pollStep host s c).restartStatus =
      (pollStep host s c).notifications.any isRestartAttempt := by
  by_cases h1 : c.short_id ∈ s.tracker ∧ get_container_health_status c = "healthy"
  · simp [pollStep, container_recovered, h1, isRestartAttempt, h]
  · by_cases h2 : get_container_health_status c = "unhealthy"
    · by_cases h3 : c.restartOk = true <;>
        simp [pollStep, restart_container, h1, h2, h3, isRestartAttempt]
    · simp [pollStep, h1, h2, h]

theorem foldl_pollStep_flag (host : String) (cs : List Container) :
    ∀ s : CycleState, s.restartStatus = s.notifications.any isRestartAttempt →
      (cs.foldl (pollStep host) s).restartStatus =
        (cs.foldl (pollStep host) s).notifications.any isRestartAttempt := by
  induction cs with
  | nil => intro s h; exact h
  | cons c cs ih => intro s h; exact ih _ (pollStep_flag host s c h)

theorem pollStep_evaluated (host : String) (s : CycleState) (c : Container) :
    (pollStep host s c).evaluated = s.evaluated ++ [c.short_id] := by
  by_cases h1 : c.short_id ∈ s.tracker ∧ get_container_health_status c = "healthy"
  · simp [pollStep, container_recovered, h1]
  · by_cases h2 : get_container_health_status c = "unhealthy"
    · by_cases h3 : c.restartOk = true <;>
        simp [pollStep, restart_container, h1, h2, h3]
    · simp [pollStep, h1, h2]

theorem foldl_pollStep_evaluated (host : String) (cs : List Container) :
    ∀ s : CycleState, (cs.foldl (pollStep host) s).evaluated
      = s.evaluated ++ cs.map (fun c => c.short_id) := by
  induction cs with
  | nil => intro s; simp
  | cons c cs ih =>
    intro s
    rw [List.foldl_cons, ih, pollStep_evaluated]
    simp

theorem mem_trackerStep_of_not_healthy {t : List String} {c : Container}
    {id : String} (hin : id ∈ t) (hnh : ¬ obsHealthy c id) :
    id ∈ trackerStep t c := by
  unfold trackerStep
  split
  · rename_i hcond
    rcases hcond with ⟨hm, hh⟩
    by_cases hid : c.short_id = id
    · exact absurd ⟨hid, hh⟩ hnh
    · exact (List.mem_erase_of_ne (fun h => hid h.symm)).mpr hin
  · split
    · split
      · split
        · exact hin
        · exact List.mem_append_left _ hin
      · exact hin
    · exact hin

/-- C1: an untracked container with health_status nokey and runtime status
exited is claimed to trigger the restart path. Evaluating both variants at
that observation shows the underscore variant container_watchdog.py takes no
action at all (its restart branch tests only health == unhealthy), while the
hyphen variant container-watchdog.py restarts it as the claim and the
underscore file inline comment state. -/
theorem c1_exited_no_restart_in_underscore_variant :
    pollStep "host" ⟨[], false, [], []⟩ cExitedNoHealth
      = ⟨[], false, [], ["c2"]⟩ ∧
    (pollStepH "host" ⟨[], false, [], []⟩ cExitedNoHealth).restartStatus = true ∧
    (pollStepH "host" ⟨[], false, [], []⟩ cExitedNoHealth).tracker = ["c2"] ∧
    (pollStepH "host" ⟨[], false, [], []⟩ cExitedNoHealth).notifications
      = [NotificationH.restartedH "worker" "nokey" "exited" "host"] := by
  refine ⟨?_, ?_, ?_, ?_⟩ <;> rfl

/-- C2: when a container id is in the Recovery Tracker and its classified
health is healthy, the poll step takes the recovery branch: it emits exactly
one recovery notification, removes the id from the tracker, and performs no
restart action (the restart flag is untouched and no restart notification is
appended). -/
theorem c2_recovery_branch_first_priority (host : String) (s : CycleState)
    (c : Container) (hmem : c.short_id ∈ s.tracker)
    (hh : get_container_health_status c = "healthy") (hnd : s.tracker.Nodup) :
    pollStep host s c =
      { tracker := s.tracker.erase c.short_id,
        restartStatus := s.restartStatus,
        notifications := s.notifications ++
          [Notification.recovered host c.name c.status "healthy"],
        evaluated := s.evaluated ++ [c.short_id] } ∧
    c.short_id ∉ (pollStep host s c).tracker ∧
    (pollStep host s c).restartStatus = s.restartStatus := by
  have h1 : c.short_id ∈ s.tracker ∧ get_container_health_status c = "healthy" :=
    ⟨hmem, hh⟩
  refine ⟨?_, ?_, ?_⟩
  · simp [pollStep, container_recovered, h1, hh]
  · rw [pollStep_tracker]
    have ht : trackerStep s.tracker c = s.tracker.erase c.short_id := by
      unfold trackerStep
      simp [h1]
    rw [ht]
    exact hnd.not_mem_erase
  · simp [pollStep, container_recovered, h1]

/-- C2 witness: concrete instantiation of the recovery branch. -/
theorem c2_recovery_branch_first_priority_witness :
    "c1" ∉ (pollStep "h" ⟨["c1"], false, [], []⟩ cHealthy).tracker ∧
    (pollStep "h" ⟨["c1"], false, [], []⟩ cHealthy).restartStatus = false ∧
    (pollStep "h" ⟨["c1"], false, [], []⟩ cHealthy).notifications
      = [Notification.recovered "h" "app" "running" "healthy"] := by
  have h := c2_recovery_branch_first_priority "h" ⟨["c1"], false, [], []⟩ cHealthy
    (by simp [cHealthy]) rfl (by simp)
  refine ⟨?_, h.2.2, ?_⟩
  · have := h.2.1
    simpa [cHealthy] using this
  · rw [h.1]
    simp [cHealthy]

/-- C3: starting from the empty tracker, after any sequence of poll cycles
the tracker has no duplicate entries, an id is in the tracker exactly when
some observation successfully triggered a restart for it and no later
observation reported it healthy, and the append on a successful restart is
idempotent: a step on an already tracked unhealthy container leaves the
tracker exactly as it was. -/
theorem c3_tracker_invariant (host : String) (css : List (List Container))
    (id : String) :
    (runCycles host [] css).Nodup ∧
    (id ∈ runCycles host [] css ↔ restartedUnhealed css.flatten id) ∧
    (∀ t c, c.short_id ∈ t →
      get_container_health_status c = "unhealthy" → trackerStep t c = t) := by
  refine ⟨?_, ?_, ?_⟩
  · rw [runCycles_eq_processTrace]
    exact nodup_processTrace (by simp) _
  · rw [runCycles_eq_processTrace,
      mem_processTrace css.flatten id [] (by simp)]
    simp
  · intro t c hm hu
    have hnh : ¬ (c.short_id ∈ t ∧ get_container_health_status c = "healthy") := by
      rintro ⟨_, hh⟩
      rw [hu] at hh
      exact absurd hh (by decide)
    unfold trackerStep
    simp [hnh, hu, hm]

/-- C3 witness: one successful restart of an unhealthy container puts its id
in the tracker, and a further step on the same unhealthy container leaves
the tracker with that single entry. -/
theorem c3_tracker_invariant_witness :
    ("c1" ∈ runCycles "h" [] [[cUnhealthy]]) ∧
    trackerStep ["c1"] cUnhealthy = ["c1"] := by
  have h := c3_tracker_invariant "h" [[cUnhealthy]] "c1"
  constructor
  · refine h.2.1.mpr ?_
    show (trigOk cUnhealthy "c1" ∧ ∀ y ∈ ([] : List Container), ¬ obsHealthy y "c1")
        ∨ restartedUnhealed [] "c1"
    exact Or.inl ⟨⟨rfl, rfl, rfl⟩, by simp⟩
  · exact h.2.2 ["c1"] cUnhealthy (by simp [cUnhealthy]) rfl

/-- C4: when the restart call errors on an unhealthy container, the step
leaves the tracker exactly as it was (in particular an id absent before
stays absent), and the single emitted notification is the restart failure
text, which is distinct from every restart success notification. -/
theorem c4_restart_failure_leaves_tracker (host : String) (s : CycleState)
    (c : Container) (hu : get_container_health_status c = "unhealthy")
    (hf : c.restartOk = false) :
    (pollStep host s c).tracker = s.tracker ∧
    (pollStep host s c).notifications =
      s.notifications ++ [Notification.restartFailed c.name host c.restartErr] ∧
    (c.short_id ∉ s.tracker → c.short_id ∉ (pollStep host s c).tracker) ∧
    (∀ h n st hs lg, Notification.restartFailed c.name host c.restartErr ≠
      Notification.restarted h n st hs lg) := by
  have h1 : ¬ (c.short_id ∈ s.tracker ∧ get_container_health_status c = "healthy") := by
    rintro ⟨_, hh⟩
    rw [hu] at hh
    exact absurd hh (by decide)
  have ht : (pollStep host s c).tracker = s.tracker := by
    simp [pollStep, restart_container, h1, hu, hf]
  refine ⟨ht, ?_, ?_, ?_⟩
  · simp [pollStep, restart_container, h1, hu, hf]
  · intro hnm
    rw [ht]
    exact hnm
  · intro h n st hs lg hcontra
    cases hcontra

/-- C4 witness: a failed restart of an unhealthy container starting from the
empty tracker. -/
theorem c4_restart_failure_leaves_tracker_witness :
    (pollStep "h" ⟨[], false, [], []⟩ cUnhealthyFail).tracker = [] ∧
    (pollStep "h" ⟨[], false, [], []⟩ cUnhealthyFail).notifications
      = [Notification.restartFailed "app" "h" "boom"] ∧
    "c1" ∉ (pollStep "h" ⟨[], false, [], []⟩ cUnhealthyFail).tracker := by
  have h := c4_restart_failure_leaves_tracker "h" ⟨[], false, [], []⟩
    cUnhealthyFail rfl rfl
  refine ⟨h.1, ?_, ?_⟩
  · have := h.2.1
    simpa [cUnhealthyFail] using this
  · have := h.2.2.1 (by simp)
    simpa [cUnhealthyFail] using this

/-- C5: the sleep interval selected at the end of a cycle is the
post-restart interval exactly when the cycle emitted at least one restart
attempt notification (restart success or restart failure both count), and
the steady interval otherwise. -/
theorem c5_sleep_interval_selection (host : String) (pollingAfter polling : Nat)
    (t : List String) (cs : List Container) :
    sleepInterval pollingAfter polling (pollCycle host t cs) =
      if (pollCycle host t cs).notifications.any isRestartAttempt
      then pollingAfter else polling := by
  unfold sleepInterval pollCycle
  rw [foldl_pollStep_flag host cs ⟨t, false, [], []⟩ rfl]

/-- C6: the poll cycle evaluates the decision engine on every container the
runtime collaborator enumeration returns, in order, with no filtering by the
daemon; the collaborator interface is modelled from the spec as returning
every visible container. -/
theorem c6_no_daemon_filtering (host : String) (t : List String)
    (visible : List Container) :
    (pollCycleFromRuntime host t visible).evaluated
        = visible.map (fun c => c.short_id) ∧
    list_containers visible = visible := by
  constructor
  · show (pollCycle host t (list_containers visible)).evaluated = _
    unfold pollCycle
    rw [foldl_pollStep_evaluated]
    simp [list_containers]
  · rfl

/-- C7: the health classifier is total and never surfaces an error: an
absent health sub-structure yields the nokey sentinel for both the status
and the log tail, a log array that exists but has zero entries yields the
empty sentinel for the tail, and the nokey sentinel is distinct from the
real health values and from the empty sentinel. -/
theorem c7_health_classifier_sentinels (c : Container) :
    (c.attrs.Health = none →
      get_container_health_status c = "nokey" ∧
      get_container_health_log c = "nokey") ∧
    (∀ h, c.attrs.Health = some h → h.Log = some [] →
      get_container_health_log c = "empty") ∧
    (c.attrs.Health = none →
      get_container_health_status c ∉
        (["healthy", "unhealthy", "starting", "empty"] : List String)) := by
  refine ⟨?_, ?_, ?_⟩
  · intro h
    constructor <;> simp [get_container_health_status, get_container_health_log, h]
  · intro hSub hsome hlog
    simp [get_container_health_log, hsome, hlog]
  · intro h
    simp [get_container_health_status, h]

/-- C7 witness: the sentinels at concrete attribute structures. -/
theorem c7_health_classifier_sentinels_witness :
    get_container_health_status cExitedNoHealth = "nokey" ∧
    get_container_health_log cExitedNoHealth = "nokey" ∧
    get_container_health_log cEmptyLog = "empty" := by
  have h1 := c7_health_classifier_sentinels cExitedNoHealth
  have h2 := c7_health_classifier_sentinels cEmptyLog
  exact ⟨(h1.1 rfl).1, (h1.1 rfl).2,
    h2.2.1 ⟨some "healthy", some []⟩ rfl rfl⟩

/-- C8 counterexample: an enumeration failure during the run loop does not
yield a cycle with no observations; the unguarded list call makes the error
propagate out of the cycle, so the claim fails at this concrete input. -/
theorem c8_enumeration_error_propagates_counterexample :
    runCycleE "UNKNOWN" [] (Except.error "docker socket unreachable")
        = Except.error "docker socket unreachable" ∧
    runCycleE "UNKNOWN" [] (Except.error "docker socket unreachable")
        ≠ Except.ok (pollCycle "UNKNOWN" [] []) := by
  exact ⟨rfl, by simp [runCycleE]⟩

/-- C8 amended: a connectivity failure at startup exits the process, and an
enumeration failure during the run loop propagates out of the cycle
(terminating the process) instead of being treated as an empty cycle; a
successful enumeration runs the cycle over the returned containers. -/
theorem c8_startup_fatal_loop_unguarded (host : String) (t : List String)
    (e : String) (cs : List Container) :
    startupCheck (Except.error e) = none ∧
    startupCheck (Except.ok ()) = some () ∧
    runCycleE host t (Except.error e) = Except.error e ∧
    runCycleE host t (Except.ok cs) = Except.ok (pollCycle host t cs) :=
  ⟨rfl, rfl, rfl, rfl⟩

/-- C9 counterexample: a failing SMTP connection aborts the whole
notification fan-out and the poll cycle, because the smtplib.SMTP connect
call stands outside the try block; the claim that a transport failure never
aborts the cycle fails at this concrete input. -/
theorem c9_smtp_connect_failure_aborts_counterexample :
    notifyBoth "http://hook.example" "ops@example.com" "smtp.example.com"
        PostResult.success (Except.error "connection refused") (Except.ok ())
      = Except.error "connection refused" := by
  rfl

/-- C9 amended: transports with absent configuration are silent no-ops;
webhook failures of the caught kinds (timeout, builtin connection error) and
SMTP failures during message transmission are logged and swallowed, and a
caught webhook failure does not block the SMTP delivery; but an SMTP
connection-establishment failure occurs outside the exception handler and
propagates, aborting the fan-out and the poll cycle. -/
theorem c9_transport_isolation (url receiver server e1 e2 : String)
    (post : PostResult) (sendMsg : Except String Unit)
    (hurl : url ≠ "") (hr : receiver ≠ "") (hs : server ≠ "")
    (hcaught : post = PostResult.timeout ∨ post = PostResult.connError) :
    send_slack_message "" post = Except.ok SendOutcome.skipped ∧
    send_smtp_message "" server (Except.error e1) sendMsg
        = Except.ok SendOutcome.skipped ∧
    send_smtp_message receiver "" (Except.error e1) sendMsg
        = Except.ok SendOutcome.skipped ∧
    send_slack_message url post = Except.ok SendOutcome.loggedError ∧
    notifyBoth url receiver server post (Except.ok ()) (Except.error e2)
        = Except.ok (SendOutcome.loggedError, SendOutcome.loggedError) ∧
    notifyBoth url receiver server post (Except.error e1) sendMsg
        = Except.error e1 := by
  have hslack : send_slack_message url post = Except.ok SendOutcome.loggedError := by
    rcases hcaught with h | h <;> subst h <;> simp [send_slack_message, hurl]
  refine ⟨?_, ?_, ?_, hslack, ?_, ?_⟩
  · simp [send_slack_message]
  · simp [send_smtp_message]
  · simp [send_smtp_message]
  · simp [notifyBoth, hslack, send_smtp_message, hr, hs]
    rfl
  · simp [notifyBoth, hslack, send_smtp_message, hr, hs]
    rfl

/-- C9 witness: concrete instantiation with a caught webhook timeout and an
SMTP transmission error, both swallowed independently. -/
theorem c9_transport_isolation_witness :
    send_slack_message "http://hook.example" PostResult.timeout
        = Except.ok SendOutcome.loggedError ∧
    notifyBoth "http://hook.example" "ops@example.com" "smtp.example.com"
        PostResult.timeout (Except.ok ()) (Except.error "mailbox full")
      = Except.ok (SendOutcome.loggedError, SendOutcome.loggedError) := by
  have h := c9_transport_isolation "http://hook.example" "ops@example.com"
    "smtp.example.com" "x" "mailbox full" PostResult.timeout (Except.ok ())
    (by decide) (by decide) (by decide) (Or.inl rfl)
  exact ⟨h.2.2.2.1, h.2.2.2.2.1⟩

/-- C10: a tracked id is removed only by the recovery branch: a step removes
an id only when that very container is observed with classified health
healthy, so a tracked id that is never observed healthy again (in particular
one that never reappears in any enumeration) stays in the tracker through
every later cycle. -/
theorem c10_tracked_id_persists (host : String) (t : List String) (id : String)
    (css : List (List Container)) (hin : id ∈ t)
    (hnoheal : ∀ c ∈ css.flatten, ¬ obsHealthy c id) :
    id ∈ runCycles host t css ∧
    (∀ tr c, id ∈ tr → id ∉ trackerStep tr c → obsHealthy c id) := by
  constructor
  · rw [runCycles_eq_processTrace]
    have hper : ∀ (obs : List Container) (tt : List String), id ∈ tt →
        (∀ c ∈ obs, ¬ obsHealthy c id) → id ∈ processTrace tt obs := by
      intro obs
      induction obs with
      | nil => intro tt h _; exact h
      | cons c cs ih =>
        intro tt h hno
        exact ih (trackerStep tt c)
          (mem_trackerStep_of_not_healthy h (hno c (by simp)))
          (fun y hy => hno y (by simp [hy]))
    exact hper css.flatten t hin hnoheal
  · intro tr c hmem hnot
    by_contra hcontra
    exact hnot (mem_trackerStep_of_not_healthy hmem hcontra)

/-- C10 witness: the tracked id c1 survives a cycle that observes only an
unrelated healthy container. -/
theorem c10_tracked_id_persists_witness :
    "c1" ∈ runCycles "h" ["c1"] [[cOtherHealthy]] := by
  have h := c10_tracked_id_persists "h" ["c1"] "c1" [[cOtherHealthy]]
    (by simp)
    (by
      intro c hc
      have hc2 : c = cOtherHealthy := by simpa using hc
      subst hc2
      rintro ⟨hid, _⟩
      exact absurd hid (by decide))
  exact h.1

end Watchdog
